import Mathlib

/-!
Verification of the conversational-turn orchestration in `src/day1/main.py`
(a voice-assistant backend). Text is modelled as `List Char` (Python strings
by code point), the in-memory session map as an association list, and the
three external collaborators (speech-to-text, language model, speech
synthesis) as oracle functions that either return a value or fail (`none`,
standing for a raised exception). The endpoint handler `agent_chat` is a
pure function of the oracles, the store, and the request; it also returns
the trace of prompts sent to the language model and of texts sent to the
synthesizer, so call-count properties are statable.
-/

set_option autoImplicit false

namespace Day1

/-- Whitespace as Python's `str.strip` sees it (the ASCII part). -/
def py_isspace (c : Char) : Bool :=
  c = ' ' || c = '\t' || c = '\n' || c = '\r' || c = Char.ofNat 11 || c = Char.ofNat 12

/-- Python `content.strip()`: drop leading and trailing whitespace. -/
def py_strip (s : List Char) : List Char :=
  ((s.dropWhile py_isspace).reverse.dropWhile py_isspace).reverse

/-- One message of a session history: `{"role": role, "content": content}`
as appended by `append_to_history` (main.py line 18). -/
structure Turn where
  role : String
  content : List Char
  deriving DecidableEq, Repr

/-- The global `chat_histories` dict (main.py line 12), as an association
list from session id to turn list. -/
abbrev ChatHistories := List (String × List Turn)

/-- `chat_histories.get(session_id, [])` (main.py lines 20-22). -/
def get_chat_history (hs : ChatHistories) (sid : String) : List Turn :=
  match hs with
  | [] => []
  | (k, v) :: rest => if k = sid then v else get_chat_history rest sid

/-- `chat_histories[session_id] = v`, creating the key if absent. -/
def set_history (hs : ChatHistories) (sid : String) (v : List Turn) : ChatHistories :=
  match hs with
  | [] => [(sid, v)]
  | (k, w) :: rest => if k = sid then (k, v) :: rest else (k, w) :: set_history rest sid v

/-- `append_to_history` (main.py lines 14-18): ensure the session key exists,
then append `{"role": role, "content": content.strip()}`. -/
def append_to_history (hs : ChatHistories) (sid : String) (role : String)
    (content : List Char) : ChatHistories :=
  set_history hs sid (get_chat_history hs sid ++ [⟨role, py_strip content⟩])

/-- `chunk_text` (main.py lines 271-272):
`[text[i:i+max_len] for i in range(0, len(text), max_len)]`.
(Python raises for step 0; the `max_len = 0` branch here is never used —
the code only calls it with the default 3000.) -/
def chunk_text (text : List Char) (max_len : Nat) : List (List Char) :=
  if h : text = [] ∨ max_len = 0 then []
  else text.take max_len :: chunk_text (text.drop max_len) max_len
termination_by text.length
decreasing_by
  simp only [List.length_drop]
  push_neg at h
  exact Nat.sub_lt (List.length_pos.mpr h.1) (Nat.pos_of_ne_zero h.2)

/-- One line of the history rendering (main.py line 248):
`f"{'User' if msg['role']=='user' else 'Assistant'}: {msg['content']}"`. -/
def render_msg (t : Turn) : List Char :=
  (if t.role = "user" then "User: " else "Assistant: ").data ++ t.content

/-- The newline-join over the rendered history (main.py lines 247-250). -/
def history_text (hist : List Turn) : List Char :=
  List.intercalate ['\n'] (hist.map render_msg)

/-- The f-string text before the interpolated history (main.py lines 251-254). -/
def promptHead : List Char :=
  ("\nYou are a friendly AI voice assistant.\nContinue the conversation naturally based on the following history:\n\n").data

/-- The f-string text after the interpolated history (main.py lines 256-258). -/
def promptTail : List Char := "\n\nAssistant:\n".data

/-- The full prompt sent to the language model (main.py lines 251-258). -/
def build_prompt (hist : List Turn) : List Char :=
  promptHead ++ history_text hist ++ promptTail

/-- Right single quotation mark, used in the apology strings of main.py. -/
def rsq : Char := Char.ofNat 8217

/-- ASCII apostrophe. -/
def apos : Char := Char.ofNat 39

/-- Fixed reply on transcription failure (main.py line 230). -/
def stt_fail_text : List Char :=
  "Sorry, I couldn".data ++ [rsq] ++ "t process the audio.".data

/-- Fixed reply when no usable input resolved (main.py line 238). -/
def no_input_text : List Char :=
  "I didn".data ++ [rsq] ++ "t catch anything. Can you try again?".data

/-- Fixed fallback reply on language-model failure (main.py line 264). -/
def llm_fallback_text : List Char :=
  "I had trouble thinking of a reply, but let".data ++ [apos] ++ "s keep going.".data

/-- The external collaborators, as oracles. `none` models a raised
exception; for the transcriber and model, `some` carries the returned
text (the model's `getattr` fallback chain is absorbed into the oracle). -/
structure Env where
  transcribe : List Nat → Option (List Char)
  llm : List Char → Option (List Char)
  tts : List Char → Option String

/-- The request body of `POST /agent/chat/{session_id}` as the input
block (main.py lines 199-220) distinguishes it: multipart form with
optional file and text fields, JSON with an optional `text` key, any
other content type, or a body whose parsing raises. -/
inductive RequestBody where
  | multipart (fileField : Option (List Nat)) (textField : Option (List Char))
  | jsonBody (textField : Option (List Char))
  | otherContent
  | malformed
  deriving DecidableEq, Repr

/-- The input-handling block (main.py lines 199-220): yields the
`file_bytes` and `input_text` locals. JSON reads `body.get("text", "")`
and strips; multipart strips a present text field; any parse failure
leaves both unset. -/
def resolve_input : RequestBody → Option (List Nat) × Option (List Char)
  | .multipart f t => (f, t.map py_strip)
  | .jsonBody t => (none, some (py_strip (t.getD [])))
  | .otherContent => (none, none)
  | .malformed => (none, none)

/-- Outcome of input resolution including the STT step. -/
inductive Resolution where
  | sttFailed
  | text (t : Option (List Char))
  deriving DecidableEq, Repr

/-- The STT block (main.py lines 222-233) on top of `resolve_input`:
non-empty file bytes (Python truthiness) are transcribed, replacing
`input_text`; a transcription exception short-circuits. -/
def resolve (env : Env) (req : RequestBody) : Resolution :=
  let fi := resolve_input req
  match fi.1 with
  | some bs =>
    if bs = [] then .text fi.2
    else
      match env.transcribe bs with
      | none => .sttFailed
      | some t => .text (some t)
  | none => .text fi.2

/-- The TTS loop (main.py lines 269-281): synthesize each chunk in order,
stopping at the first failure. Returns the accumulated urls (`none` when
any call raised, in which case the handler discards the list) and the
ordered list of texts actually sent to the synthesizer. -/
def run_tts (tts : List Char → Option String) : List (List Char) → Option (List String) × List (List Char)
  | [] => (some [], [])
  | c :: cs =>
    match tts c with
    | none => (none, [c])
    | some u =>
      let r := run_tts tts cs
      (r.1.map (u :: ·), c :: r.2)

/-- The JSON payload returned by the endpoint (main.py lines 283-288). -/
structure AgentResponse where
  success : Bool
  gemini_text : List Char
  audio_urls : List String
  history : List Turn
  deriving DecidableEq, Repr

/-- Result of one call: the payload, the updated store, and the traces
of prompts sent to the language model and texts sent to the synthesizer. -/
structure AgentResult where
  resp : AgentResponse
  store : ChatHistories
  llm_calls : List (List Char)
  tts_calls : List (List Char)
  deriving DecidableEq, Repr

/-- Main pipeline after input resolved to non-empty text (main.py lines
243-288): append the user turn, build the prompt from the full history,
call the model (falling back to the fixed text on failure), append the
assistant turn, synthesize chunk by chunk (discarding all urls on any
failure), and assemble the payload. -/
def main_pipeline (env : Env) (hs : ChatHistories) (sid : String)
    (input_text : List Char) : AgentResult :=
  let hs1 := append_to_history hs sid "user" input_text
  let prompt := build_prompt (get_chat_history hs1 sid)
  let gemini_text := (env.llm prompt).getD llm_fallback_text
  let hs2 := append_to_history hs1 sid "assistant" gemini_text
  let tts := run_tts env.tts (chunk_text gemini_text 3000)
  ⟨⟨true, gemini_text, tts.1.getD [], get_chat_history hs2 sid⟩, hs2, [prompt], tts.2⟩

/-- The `POST /agent/chat/{session_id}` handler (main.py lines 196-296). -/
def agent_chat (env : Env) (hs : ChatHistories) (sid : String)
    (req : RequestBody) : AgentResult :=
  match resolve env req with
  | .sttFailed => ⟨⟨true, stt_fail_text, [], get_chat_history hs sid⟩, hs, [], []⟩
  | .text none => ⟨⟨true, no_input_text, [], get_chat_history hs sid⟩, hs, [], []⟩
  | .text (some t) =>
    if t = [] then ⟨⟨true, no_input_text, [], get_chat_history hs sid⟩, hs, [], []⟩
    else main_pipeline env hs sid t

/-- The reply text computed by the pipeline for resolved input `t`: the
model's answer on the full-history prompt, or the fixed fallback when the
model call fails (main.py lines 245-264). -/
def pipeline_reply (env : Env) (hs : ChatHistories) (sid : String) (t : List Char) : List Char :=
  (env.llm (build_prompt (get_chat_history (append_to_history hs sid "user" t) sid))).getD
    llm_fallback_text

/-- Test oracle where every collaborator fails. -/
def envFailAll : Env := ⟨fun _ => none, fun _ => none, fun _ => none⟩

/-- Test oracle: the model replies with a fixed text carrying surrounding
whitespace, synthesis succeeds. -/
def envReplyPadded : Env :=
  ⟨fun _ => none, fun _ => some [' ', 'h', 'i', ' '], fun _ => some "u"⟩

/-- Test oracle: the model call fails, synthesis succeeds. -/
def envLLMDown : Env := ⟨fun _ => none, fun _ => none, fun _ => some "u"⟩

/-- Test oracle: the model replies with one character, synthesis fails. -/
def envTTSDown : Env := ⟨fun _ => none, fun _ => some ['a'], fun _ => none⟩

/-- Test oracle: the model replies with 7000 characters, synthesis succeeds. -/
def envLong : Env := ⟨fun _ => none, fun _ => some (List.replicate 7000 'a'), fun _ => some "u"⟩

/-! ### Chunker lemmas -/

theorem chunk_text_nil (n : Nat) : chunk_text [] n = [] := by
  rw [chunk_text]
  simp

theorem chunk_text_cons {text : List Char} {n : Nat} (h1 : text ≠ []) (h2 : n ≠ 0) :
    chunk_text text n = text.take n :: chunk_text (text.drop n) n := by
  rw [chunk_text]
  simp [h1, h2]

theorem chunk_text_join (n : Nat) (hn : n ≠ 0) (T : List Char) :
    (chunk_text T n).flatten = T := by
  generalize hk : T.length = k
  induction k using Nat.strong_induction_on generalizing T with
  | _ k ih =>
    by_cases hT : T = []
    · subst hT
      simp [chunk_text_nil]
    · rw [chunk_text_cons hT hn, List.flatten_cons,
        ih (T.drop n).length ?_ (T.drop n) rfl, List.take_append_drop]
      have hpos : 0 < T.length := List.length_pos.mpr hT
      simp only [List.length_drop]
      omega

theorem chunk_text_len_le (n : Nat) (T : List Char) :
    ∀ c ∈ chunk_text T n, c.length ≤ n := by
  generalize hk : T.length = k
  induction k using Nat.strong_induction_on generalizing T with
  | _ k ih =>
    by_cases hn : n = 0
    · subst hn
      rw [chunk_text]
      simp
    · by_cases hT : T = []
      · subst hT
        simp [chunk_text_nil]
      · rw [chunk_text_cons hT hn]
        intro c hc
        rcases List.mem_cons.mp hc with h | h
        · subst h
          simp [List.length_take]
        · refine ih (T.drop n).length ?_ (T.drop n) rfl c h
          have hpos : 0 < T.length := List.length_pos.mpr hT
          simp only [List.length_drop]
          omega

theorem chunk_text_single {T : List Char} (h1 : T ≠ []) (h2 : T.length ≤ 3000) :
    chunk_text T 3000 = [T] := by
  rw [chunk_text_cons h1 (by norm_num), List.take_of_length_le h2,
    List.drop_eq_nil_of_le h2, chunk_text_nil]

/-- Claim C1: `chunk_text` at `max_len` 3000 returns an ordered list of
contiguous, non-overlapping substrings whose concatenation is exactly the
input (so it is lossless), each of length at most 3000, and the empty
string yields the empty list. (Determinism and purity hold because it is
a function.) -/
theorem chunk_text_c1 (T : List Char) :
    (chunk_text T 3000).flatten = T ∧
    (∀ c ∈ chunk_text T 3000, c.length ≤ 3000) ∧
    chunk_text ([] : List Char) 3000 = [] :=
  ⟨chunk_text_join 3000 (by norm_num) T, chunk_text_len_le 3000 T, chunk_text_nil 3000⟩

/-- Claim C9, counterexample: the claim says every text of length at most
3000 chunks to a one-element list containing the text itself, but the
empty string chunks to the empty list, not to `[[]]`. -/
theorem chunk_text_c9_counterexample :
    ¬ (chunk_text ([] : List Char) 3000 = [([] : List Char)]) := by
  rw [chunk_text_nil]
  simp

/-- Claim C9, amended: for every NON-EMPTY text of length at most 3000,
`chunk_text` at 3000 returns the one-element list containing the text
itself; the empty text returns the empty list. -/
theorem chunk_text_c9_amended (T : List Char) (h1 : T ≠ []) (h2 : T.length ≤ 3000) :
    chunk_text T 3000 = [T] :=
  chunk_text_single h1 h2

/-- Witness for the amended C9 at the one-character text `"a"`. -/
theorem chunk_text_c9_amended_witness :
    chunk_text ['a'] 3000 = [['a']] :=
  chunk_text_c9_amended ['a'] (by decide) (by decide)

/-! ### Session-store lemmas -/

theorem get_set_same (hs : ChatHistories) (sid : String) (v : List Turn) :
    get_chat_history (set_history hs sid v) sid = v := by
  induction hs with
  | nil => simp [set_history, get_chat_history]
  | cons p rest ih =>
    obtain ⟨k, w⟩ := p
    by_cases hk : k = sid
    · simp [set_history, get_chat_history, hk]
    · simp [set_history, get_chat_history, hk, ih]

theorem get_set_other (hs : ChatHistories) (sid sid2 : String) (v : List Turn)
    (hne : sid2 ≠ sid) :
    get_chat_history (set_history hs sid v) sid2 = get_chat_history hs sid2 := by
  have hne2 : sid ≠ sid2 := Ne.symm hne
  induction hs with
  | nil => simp [set_history, get_chat_history, hne2]
  | cons p rest ih =>
    obtain ⟨k, w⟩ := p
    by_cases hk : k = sid
    · subst hk
      simp [set_history, get_chat_history, hne2]
    · simp [set_history, get_chat_history, hk, ih]

theorem get_append_same (hs : ChatHistories) (sid role : String) (c : List Char) :
    get_chat_history (append_to_history hs sid role c) sid =
      get_chat_history hs sid ++ [⟨role, py_strip c⟩] := by
  rw [append_to_history, get_set_same]

theorem get_append_other (hs : ChatHistories) (sid sid2 role : String) (c : List Char)
    (hne : sid2 ≠ sid) :
    get_chat_history (append_to_history hs sid role c) sid2 =
      get_chat_history hs sid2 := by
  rw [append_to_history, get_set_other _ _ _ _ hne]

/-- Claim C6: `append_to_history` adds exactly one turn, with the content
stripped of leading and trailing whitespace, to the end of the named
session's history (creating the session if absent, so an unseen session
holds exactly one turn after the call), leaves other sessions untouched,
and `get_chat_history` of a never-referenced session (the empty store)
is the empty sequence; the append-at-the-end equation is exactly
preservation of chronological append order. -/
theorem append_history_c6 (hs : ChatHistories) (sid sid2 role : String)
    (c : List Char) (hne : sid2 ≠ sid) :
    get_chat_history (append_to_history hs sid role c) sid =
      get_chat_history hs sid ++ [⟨role, py_strip c⟩] ∧
    (get_chat_history hs sid = [] →
      get_chat_history (append_to_history hs sid role c) sid = [⟨role, py_strip c⟩]) ∧
    get_chat_history (append_to_history hs sid role c) sid2 = get_chat_history hs sid2 ∧
    get_chat_history ([] : ChatHistories) sid = [] := by
  refine ⟨get_append_same hs sid role c, ?_, get_append_other hs sid sid2 role c hne, rfl⟩
  intro hempty
  rw [get_append_same, hempty, List.nil_append]

/-- Witness for C6 at a concrete store, session ids and content with
surrounding whitespace. -/
theorem append_history_c6_witness :
    get_chat_history (append_to_history [] "s1" "user" [' ', 'h', 'i', ' ']) "s1" =
      get_chat_history ([] : ChatHistories) "s1" ++ [⟨"user", py_strip [' ', 'h', 'i', ' ']⟩] ∧
    (get_chat_history ([] : ChatHistories) "s1" = [] →
      get_chat_history (append_to_history [] "s1" "user" [' ', 'h', 'i', ' ']) "s1" =
        [⟨"user", py_strip [' ', 'h', 'i', ' ']⟩]) ∧
    get_chat_history (append_to_history [] "s1" "user" [' ', 'h', 'i', ' ']) "s2" =
      get_chat_history ([] : ChatHistories) "s2" ∧
    get_chat_history ([] : ChatHistories) "s1" = [] :=
  append_history_c6 [] "s1" "s2" "user" [' ', 'h', 'i', ' '] (by decide)

/-! ### TTS-loop lemmas -/

theorem run_tts_all_some (tts : List Char → Option String) :
    ∀ l : List (List Char), (∀ c ∈ l, (tts c).isSome) →
      run_tts tts l = (some (l.map fun c => (tts c).getD ""), l)
  | [], _ => rfl
  | c :: cs, h => by
    obtain ⟨u, hu⟩ := Option.isSome_iff_exists.mp (h c (List.mem_cons_self c cs))
    have ih := run_tts_all_some tts cs (fun d hd => h d (List.mem_cons_of_mem c hd))
    simp [run_tts, hu, ih]

theorem run_tts_fail (tts : List Char → Option String) :
    ∀ l : List (List Char), (∃ c ∈ l, tts c = none) → (run_tts tts l).1 = none
  | [], h => by simp at h
  | c :: cs, h => by
    cases hu : tts c with
    | none => simp [run_tts, hu]
    | some u =>
      obtain ⟨d, hd, hdn⟩ := h
      rcases List.mem_cons.mp hd with rfl | hdc
      · rw [hdn] at hu
        cases hu
      · have ih := run_tts_fail tts cs ⟨d, hdc, hdn⟩
        simp [run_tts, hu, ih]

theorem run_tts_calls_single (tts : List Char → Option String) (c : List Char) :
    (run_tts tts [c]).2 = [c] := by
  cases h : tts c <;> simp [run_tts, h]

/-! ### Endpoint branch reduction -/

theorem agent_chat_of_stt_failed {env : Env} {req : RequestBody}
    (hs : ChatHistories) (sid : String) (hres : resolve env req = .sttFailed) :
    agent_chat env hs sid req =
      ⟨⟨true, stt_fail_text, [], get_chat_history hs sid⟩, hs, [], []⟩ := by
  unfold agent_chat
  rw [hres]

theorem agent_chat_of_none {env : Env} {req : RequestBody}
    (hs : ChatHistories) (sid : String) (hres : resolve env req = .text none) :
    agent_chat env hs sid req =
      ⟨⟨true, no_input_text, [], get_chat_history hs sid⟩, hs, [], []⟩ := by
  unfold agent_chat
  rw [hres]

theorem agent_chat_of_empty {env : Env} {req : RequestBody}
    (hs : ChatHistories) (sid : String) (hres : resolve env req = .text (some [])) :
    agent_chat env hs sid req =
      ⟨⟨true, no_input_text, [], get_chat_history hs sid⟩, hs, [], []⟩ := by
  unfold agent_chat
  rw [hres]
  rfl

theorem agent_chat_of_text {env : Env} {req : RequestBody} {t : List Char}
    (hs : ChatHistories) (sid : String) (hres : resolve env req = .text (some t))
    (ht : t ≠ []) :
    agent_chat env hs sid req = main_pipeline env hs sid t := by
  unfold agent_chat
  rw [hres]
  simp [ht]

/-- Claim C2: for every request to the endpoint — any content type, any
body shape, and any combination of transcription, language-model, or
synthesis failures (any oracle behavior) — the returned payload has
`success = true`; no failure is surfaced as a non-success response. -/
theorem agent_chat_c2 (env : Env) (hs : ChatHistories) (sid : String)
    (req : RequestBody) :
    (agent_chat env hs sid req).resp.success = true := by
  unfold agent_chat
  split
  · rfl
  · rfl
  · split
    · rfl
    · rfl

/-- Claim C3: when the request resolves to no usable input the handler
returns the fixed no-input reply, and when transcription of carried audio
fails it returns the fixed audio-apology reply; in both cases the audio
list is empty, `success` is true, the returned history is the session's
current history, and the store is unchanged (nothing is appended, and no
model or synthesis call is made). -/
theorem agent_chat_c3 (env : Env) (hs : ChatHistories) (sid : String)
    (req : RequestBody) :
    ((resolve env req = .text none ∨ resolve env req = .text (some [])) →
      agent_chat env hs sid req =
        ⟨⟨true, no_input_text, [], get_chat_history hs sid⟩, hs, [], []⟩) ∧
    (resolve env req = .sttFailed →
      agent_chat env hs sid req =
        ⟨⟨true, stt_fail_text, [], get_chat_history hs sid⟩, hs, [], []⟩) := by
  constructor
  · rintro (hres | hres)
    · exact agent_chat_of_none hs sid hres
    · exact agent_chat_of_empty hs sid hres
  · intro hres
    exact agent_chat_of_stt_failed hs sid hres

/-- Witness for C3: an empty JSON body on a fresh session yields the
no-input reply with nothing stored, and audio whose transcription fails
yields the audio-apology reply with nothing stored. -/
theorem agent_chat_c3_witness :
    agent_chat envFailAll [] "s" (.jsonBody none) =
      ⟨⟨true, no_input_text, [], []⟩, [], [], []⟩ ∧
    agent_chat envFailAll [] "s" (.multipart (some [0]) none) =
      ⟨⟨true, stt_fail_text, [], []⟩, [], [], []⟩ :=
  ⟨(agent_chat_c3 envFailAll [] "s" (.jsonBody none)).1 (Or.inr rfl),
   (agent_chat_c3 envFailAll [] "s" (.multipart (some [0]) none)).2 rfl⟩

/-- Characterization of the pipeline run on resolved non-empty input. -/
theorem main_pipeline_eq (env : Env) (hs : ChatHistories) (sid : String)
    (t : List Char) :
    main_pipeline env hs sid t =
      ⟨⟨true, pipeline_reply env hs sid t,
        (run_tts env.tts (chunk_text (pipeline_reply env hs sid t) 3000)).1.getD [],
        get_chat_history hs sid ++
          [⟨"user", py_strip t⟩, ⟨"assistant", py_strip (pipeline_reply env hs sid t)⟩]⟩,
       append_to_history (append_to_history hs sid "user" t) sid "assistant"
         (pipeline_reply env hs sid t),
       [build_prompt (get_chat_history (append_to_history hs sid "user" t) sid)],
       (run_tts env.tts (chunk_text (pipeline_reply env hs sid t) 3000)).2⟩ := by
  simp only [main_pipeline, pipeline_reply]
  simp [get_append_same]

/-- Claim C4: when the language-model call fails after the user turn was
appended, the handler substitutes the fixed fallback reply and continues:
the returned `gemini_text` is the fallback string, the assistant turn with
the (trimmed) fallback text is still appended to the session history, and
synthesis is still attempted on it (exactly one synthesis call, carrying
the fallback text, since it fits one chunk). -/
theorem agent_chat_c4 (env : Env) (hs : ChatHistories) (sid : String)
    (req : RequestBody) (t : List Char)
    (hres : resolve env req = .text (some t)) (ht : t ≠ [])
    (hllm : env.llm (build_prompt (get_chat_history
      (append_to_history hs sid "user" t) sid)) = none) :
    (agent_chat env hs sid req).resp.gemini_text = llm_fallback_text ∧
    get_chat_history (agent_chat env hs sid req).store sid =
      get_chat_history hs sid ++
        [⟨"user", py_strip t⟩, ⟨"assistant", py_strip llm_fallback_text⟩] ∧
    (agent_chat env hs sid req).tts_calls = [llm_fallback_text] := by
  have hrep : pipeline_reply env hs sid t = llm_fallback_text := by
    rw [pipeline_reply, hllm]
    rfl
  rw [agent_chat_of_text hs sid hres ht, main_pipeline_eq, hrep]
  refine ⟨rfl, ?_, ?_⟩
  · simp [get_append_same, hrep]
  · rw [chunk_text_single (by decide) (by decide), run_tts_calls_single]

/-- Witness for C4: the model fails on a two-character JSON text input to
a fresh session; the fallback is returned, stored, and sent to synthesis. -/
theorem agent_chat_c4_witness :
    (agent_chat envLLMDown [] "s" (.jsonBody (some ['h', 'i']))).resp.gemini_text =
      llm_fallback_text ∧
    get_chat_history (agent_chat envLLMDown [] "s" (.jsonBody (some ['h', 'i']))).store "s" =
      [⟨"user", py_strip ['h', 'i']⟩, ⟨"assistant", py_strip llm_fallback_text⟩] ∧
    (agent_chat envLLMDown [] "s" (.jsonBody (some ['h', 'i']))).tts_calls =
      [llm_fallback_text] :=
  agent_chat_c4 envLLMDown [] "s" (.jsonBody (some ['h', 'i'])) ['h', 'i']
    rfl (by decide) rfl

/-- Claim C5: when any synthesis call fails, the response carries an empty
audio list (audio references from earlier successful chunks are
discarded), while the reply text and the full session history — including
the user and assistant turns appended before synthesis — are still
returned, and the store keeps both appended turns. -/
theorem agent_chat_c5 (env : Env) (hs : ChatHistories) (sid : String)
    (req : RequestBody) (t : List Char)
    (hres : resolve env req = .text (some t)) (ht : t ≠ [])
    (hfail : ∃ c ∈ chunk_text (pipeline_reply env hs sid t) 3000, env.tts c = none) :
    (agent_chat env hs sid req).resp.audio_urls = [] ∧
    (agent_chat env hs sid req).resp.gemini_text = pipeline_reply env hs sid t ∧
    get_chat_history (agent_chat env hs sid req).store sid =
      get_chat_history hs sid ++
        [⟨"user", py_strip t⟩, ⟨"assistant", py_strip (pipeline_reply env hs sid t)⟩] ∧
    (agent_chat env hs sid req).resp.history =
      get_chat_history (agent_chat env hs sid req).store sid := by
  rw [agent_chat_of_text hs sid hres ht, main_pipeline_eq]
  have hrun := run_tts_fail env.tts _ hfail
  refine ⟨by simp [hrun], rfl, ?_, ?_⟩
  · simp [get_append_same]
  · simp [get_append_same]

/-- Witness for C5: the model replies with one character and the single
synthesis call fails; both turns are stored and returned, no audio. -/
theorem agent_chat_c5_witness :
    (agent_chat envTTSDown [] "s" (.jsonBody (some ['h', 'i']))).resp.audio_urls = [] ∧
    (agent_chat envTTSDown [] "s" (.jsonBody (some ['h', 'i']))).resp.gemini_text =
      pipeline_reply envTTSDown [] "s" ['h', 'i'] ∧
    get_chat_history (agent_chat envTTSDown [] "s" (.jsonBody (some ['h', 'i']))).store "s" =
      [⟨"user", py_strip ['h', 'i']⟩,
       ⟨"assistant", py_strip (pipeline_reply envTTSDown [] "s" ['h', 'i'])⟩] ∧
    (agent_chat envTTSDown [] "s" (.jsonBody (some ['h', 'i']))).resp.history =
      get_chat_history (agent_chat envTTSDown [] "s" (.jsonBody (some ['h', 'i']))).store "s" :=
  agent_chat_c5 envTTSDown [] "s" (.jsonBody (some ['h', 'i'])) ['h', 'i'] rfl (by decide)
    (by
      rw [show pipeline_reply envTTSDown [] "s" ['h', 'i'] = ['a'] from rfl,
        chunk_text_single (by decide) (by decide)]
      exact ⟨['a'], List.mem_singleton_self _, rfl⟩)

/-- Claim C10: whenever the call resolves input and reaches the assistant
append, the last element of the returned history has role "assistant" and
content equal to the returned `gemini_text` with surrounding whitespace
removed — the store trims on append while the response carries the reply
text untrimmed. -/
theorem agent_chat_c10 (env : Env) (hs : ChatHistories) (sid : String)
    (req : RequestBody) (t : List Char)
    (hres : resolve env req = .text (some t)) (ht : t ≠ []) :
    (agent_chat env hs sid req).resp.history.getLast? =
      some ⟨"assistant", py_strip (agent_chat env hs sid req).resp.gemini_text⟩ := by
  rw [agent_chat_of_text hs sid hres ht, main_pipeline_eq]
  simp

/-- Witness for C10: the model replies with text padded by spaces; the
stored assistant turn is the trimmed text while the response carries the
padded text, so the two differ by exactly the surrounding whitespace. -/
theorem agent_chat_c10_witness :
    (agent_chat envReplyPadded [] "s" (.jsonBody (some ['y']))).resp.history.getLast? =
      some ⟨"assistant",
        py_strip (agent_chat envReplyPadded [] "s" (.jsonBody (some ['y']))).resp.gemini_text⟩ ∧
    (agent_chat envReplyPadded [] "s" (.jsonBody (some ['y']))).resp.gemini_text =
      [' ', 'h', 'i', ' '] ∧
    py_strip [' ', 'h', 'i', ' '] = ['h', 'i'] :=
  ⟨agent_chat_c10 envReplyPadded [] "s" (.jsonBody (some ['y'])) ['y'] rfl (by decide),
   rfl, by decide⟩

/-! ### Prompt-builder lemmas -/

theorem mem_intersperse {α : Type} {sep a : α} :
    ∀ {l : List α}, a ∈ l → a ∈ l.intersperse sep
  | [], h => by cases h
  | [b], h => by simpa using h
  | b :: c :: tl, h => by
    rw [List.intersperse_cons_cons]
    rcases List.mem_cons.mp h with rfl | h2
    · exact List.mem_cons_self _ _
    · exact List.mem_cons_of_mem _ (List.mem_cons_of_mem _ (mem_intersperse h2))

theorem infix_of_mem_intercalate {a sep : List Char} {L : List (List Char)}
    (h : a ∈ L) : a <:+: List.intercalate sep L := by
  rw [List.intercalate]
  exact List.infix_of_mem_flatten (mem_intersperse h)

/-- Claim C7: on every call that reaches the model, exactly one prompt is
sent; it is built from the session's full history including the
just-appended user turn (no truncation: the rendered line of every turn
occurs in it, in chronological order as the newline-join of the rendered
lines), it starts with the persona statement, and it ends with a trailing
`Assistant:` cue line. -/
theorem agent_chat_c7 (env : Env) (hs : ChatHistories) (sid : String)
    (req : RequestBody) (t : List Char)
    (hres : resolve env req = .text (some t)) (ht : t ≠ []) :
    (agent_chat env hs sid req).llm_calls =
      [build_prompt (get_chat_history (append_to_history hs sid "user" t) sid)] ∧
    get_chat_history (append_to_history hs sid "user" t) sid =
      get_chat_history hs sid ++ [⟨"user", py_strip t⟩] ∧
    (∀ hist : List Turn,
      build_prompt hist =
        promptHead ++ List.intercalate ['\n'] (hist.map render_msg) ++ promptTail ∧
      promptHead <+: build_prompt hist ∧
      (∀ tr ∈ hist, render_msg tr <:+: build_prompt hist) ∧
      ("Assistant:".data ++ ['\n']) <:+ build_prompt hist) := by
  refine ⟨?_, get_append_same hs sid "user" t, ?_⟩
  · rw [agent_chat_of_text hs sid hres ht, main_pipeline_eq]
  · intro hist
    refine ⟨rfl, ⟨history_text hist ++ promptTail, (List.append_assoc _ _ _).symm⟩, ?_, ?_⟩
    · intro tr htr
      have h1 : render_msg tr <:+: history_text hist :=
        infix_of_mem_intercalate (List.mem_map_of_mem render_msg htr)
      exact h1.trans ⟨promptHead, promptTail, rfl⟩
    · refine ⟨promptHead ++ history_text hist ++ ['\n', '\n'], ?_⟩
      show promptHead ++ history_text hist ++ ['\n', '\n'] ++
        ("Assistant:".data ++ ['\n']) = build_prompt hist
      rw [build_prompt]
      simp only [List.append_assoc]
      rfl

/-- Witness for C7 on a concrete two-character text to a fresh session. -/
theorem agent_chat_c7_witness :
    (agent_chat envFailAll [] "s" (.jsonBody (some ['h', 'i']))).llm_calls =
      [build_prompt (get_chat_history (append_to_history [] "s" "user" ['h', 'i']) "s")] ∧
    get_chat_history (append_to_history [] "s" "user" ['h', 'i']) "s" =
      get_chat_history ([] : ChatHistories) "s" ++ [⟨"user", py_strip ['h', 'i']⟩] ∧
    (∀ hist : List Turn,
      build_prompt hist =
        promptHead ++ List.intercalate ['\n'] (hist.map render_msg) ++ promptTail ∧
      promptHead <+: build_prompt hist ∧
      (∀ tr ∈ hist, render_msg tr <:+: build_prompt hist) ∧
      ("Assistant:".data ++ ['\n']) <:+ build_prompt hist) :=
  agent_chat_c7 envFailAll [] "s" (.jsonBody (some ['h', 'i'])) ['h', 'i'] rfl (by decide)

/-! ### The 7000-character scenario -/

theorem chunk_text_7000 {g : List Char} (hg : g.length = 7000) :
    chunk_text g 3000 =
      [g.take 3000, (g.drop 3000).take 3000, (g.drop 3000).drop 3000] ∧
    (chunk_text g 3000).map List.length = [3000, 3000, 1000] := by
  have h1 : g ≠ [] := by
    intro h
    rw [h] at hg
    simp at hg
  have h2len : (g.drop 3000).length = 4000 := by simp [hg]
  have h2 : g.drop 3000 ≠ [] := by
    intro h
    rw [h] at h2len
    simp at h2len
  have h3len : ((g.drop 3000).drop 3000).length = 1000 := by simp [hg]
  have h3 : (g.drop 3000).drop 3000 ≠ [] := by
    intro h
    rw [h] at h3len
    simp at h3len
  have heq : chunk_text g 3000 =
      [g.take 3000, (g.drop 3000).take 3000, (g.drop 3000).drop 3000] := by
    rw [chunk_text_cons h1 (by norm_num), chunk_text_cons h2 (by norm_num),
      chunk_text_single h3 (by omega)]
  refine ⟨heq, ?_⟩
  rw [heq]
  simp [List.length_take, List.length_drop, hg, h3len]

/-- Claim C8: for a model reply of exactly 7000 characters, synthesis is
invoked once per chunk, sequentially in chunk order, on chunks of lengths
3000, 3000 and 1000; when all calls succeed the audio list has length 3
and carries the synthesizer's outputs in chunk order. -/
theorem agent_chat_c8 (env : Env) (hs : ChatHistories) (sid : String)
    (req : RequestBody) (t g : List Char)
    (hres : resolve env req = .text (some t)) (ht : t ≠ [])
    (hllm : env.llm (build_prompt (get_chat_history
      (append_to_history hs sid "user" t) sid)) = some g)
    (hg : g.length = 7000)
    (hsucc : ∀ c ∈ chunk_text g 3000, (env.tts c).isSome) :
    (agent_chat env hs sid req).tts_calls = chunk_text g 3000 ∧
    (chunk_text g 3000).map List.length = [3000, 3000, 1000] ∧
    (agent_chat env hs sid req).resp.audio_urls =
      (chunk_text g 3000).map (fun c => (env.tts c).getD "") ∧
    (agent_chat env hs sid req).resp.audio_urls.length = 3 := by
  have hrep : pipeline_reply env hs sid t = g := by
    rw [pipeline_reply, hllm]
    rfl
  have hrun := run_tts_all_some env.tts (chunk_text g 3000) hsucc
  have hmap := (chunk_text_7000 hg).2
  have hlen3 : (chunk_text g 3000).length = 3 := by
    have h := congrArg List.length hmap
    simpa using h
  rw [agent_chat_of_text hs sid hres ht, main_pipeline_eq, hrep]
  refine ⟨by simp [hrun], hmap, by simp [hrun], ?_⟩
  simp [hrun, List.length_map, hlen3]

/-- Witness for C8: the model replies with 7000 copies of a character and
every synthesis call succeeds. -/
theorem agent_chat_c8_witness :
    (agent_chat envLong [] "s" (.jsonBody (some ['h', 'i']))).tts_calls =
      chunk_text (List.replicate 7000 'a') 3000 ∧
    (chunk_text (List.replicate 7000 'a') 3000).map List.length = [3000, 3000, 1000] ∧
    (agent_chat envLong [] "s" (.jsonBody (some ['h', 'i']))).resp.audio_urls =
      (chunk_text (List.replicate 7000 'a') 3000).map (fun c => (envLong.tts c).getD "") ∧
    (agent_chat envLong [] "s" (.jsonBody (some ['h', 'i']))).resp.audio_urls.length = 3 :=
  agent_chat_c8 envLong [] "s" (.jsonBody (some ['h', 'i'])) ['h', 'i']
    (List.replicate 7000 'a') rfl (by decide) rfl (List.length_replicate 7000 'a')
    (fun c _ => rfl)

end Day1
